import Mathlib

/-!
Verification of the result-cache / processing-state coordinator of the
`cdp_strands_agent` repository (src/app.py, src/app1.py, src/run.py).

The model below is a shallow embedding of the Streamlit session-state
handling in `app.py` (the richest entry point, the one whose slot set
matches the specification) plus the export tables of `app1.py`.  A
Streamlit app re-executes its `main()` from top to bottom on every
interaction; the per-slot "tab" code is therefore modelled as a step
function on an explicit state record, and a user interaction (button
click) as an event that updates the state before the next pass.

Python particulars that the embedding keeps:
* `st.session_state` values for the analysis keys are either `None` or a
  string; `Option String` with `none` = Python `None`.
* Python truthiness: `None` and `""` are falsy; every guard of the form
  `if st.session_state.get(k)` is modelled through `truthy`.
* The keys listed in `analysis_types` / `processing_types` at the top of
  `main()` (app.py lines 628-636) are created by the init loop on every
  run, so `st.session_state.get(key, '')` returns the stored value (which
  may be `None`) and never the `''` default.  The key
  `'repository_structure'` is NOT in those lists: it exists only after the
  repository-structure job stored a string.
* `app.py` defines `run_typescript_cdk_generation` twice (lines 258 and
  449) and `run_python_cdk_generation` twice (lines 320 and 474).  The
  later 4-parameter definitions shadow the earlier 5-parameter ones, while
  the call sites (lines 888-895 and 933-940) pass five positional
  arguments; CPython therefore raises `TypeError` inside
  `background_analysis`, which is caught and turned into the string
  `"Background analysis failed: <message>"` — the agent is never invoked
  for the two CDK slots.
-/

namespace CdpStrands

/-- The fixed set of analysis slots of `app.py` (session-state keys
`similar_projects_research`, `requirements_analysis`,
`architecture_analysis`, `typescript_cdk`, `python_cdk`, `cost_analysis`,
`documentation`, `repository_structure`). -/
inductive Slot where
  | similar_projects
  | requirements
  | architecture
  | typescript_cdk
  | python_cdk
  | cost
  | documentation
  | repository_structure
  deriving Repr, DecidableEq

/-- All eight slots. -/
def Slot.all : List Slot :=
  [.similar_projects, .requirements, .architecture, .typescript_cdk,
   .python_cdk, .cost, .documentation, .repository_structure]

/-- The session state of `app.py`.  Each analysis field mirrors one
session-state key; `none` is Python `None`.  `repository_structure = none`
means the key is absent (it is never set to `None`).
`project_initialized` is the truthiness of the `'project_initialized'`
key (`None`/`True` in the source). -/
structure AppState where
  similar_projects_research : Option String
  requirements_analysis : Option String
  architecture_analysis : Option String
  typescript_cdk : Option String
  python_cdk : Option String
  cost_analysis : Option String
  documentation : Option String
  repository_structure : Option String
  processing_similar_projects : Bool
  processing_requirements : Bool
  processing_architecture : Bool
  processing_typescript : Bool
  processing_python : Bool
  processing_cost : Bool
  processing_docs : Bool
  processing_repo_structure : Bool
  project_initialized : Bool
  project_name : String
  requirements_text : String
  deriving Repr, DecidableEq

/-- Read the result value of a slot (the analysis session-state key). -/
def resultOf (st : AppState) : Slot → Option String
  | .similar_projects => st.similar_projects_research
  | .requirements => st.requirements_analysis
  | .architecture => st.architecture_analysis
  | .typescript_cdk => st.typescript_cdk
  | .python_cdk => st.python_cdk
  | .cost => st.cost_analysis
  | .documentation => st.documentation
  | .repository_structure => st.repository_structure

/-- Read the processing flag of a slot. -/
def processingOf (st : AppState) : Slot → Bool
  | .similar_projects => st.processing_similar_projects
  | .requirements => st.processing_requirements
  | .architecture => st.processing_architecture
  | .typescript_cdk => st.processing_typescript
  | .python_cdk => st.processing_python
  | .cost => st.processing_cost
  | .documentation => st.processing_docs
  | .repository_structure => st.processing_repo_structure

/-- Store a result value into a slot's session-state key. -/
def setResult (st : AppState) : Slot → Option String → AppState
  | .similar_projects, v => { st with similar_projects_research := v }
  | .requirements, v => { st with requirements_analysis := v }
  | .architecture, v => { st with architecture_analysis := v }
  | .typescript_cdk, v => { st with typescript_cdk := v }
  | .python_cdk, v => { st with python_cdk := v }
  | .cost, v => { st with cost_analysis := v }
  | .documentation, v => { st with documentation := v }
  | .repository_structure, v => { st with repository_structure := v }

/-- Set the processing flag of a slot. -/
def setProcessing (st : AppState) : Slot → Bool → AppState
  | .similar_projects, b => { st with processing_similar_projects := b }
  | .requirements, b => { st with processing_requirements := b }
  | .architecture, b => { st with processing_architecture := b }
  | .typescript_cdk, b => { st with processing_typescript := b }
  | .python_cdk, b => { st with processing_python := b }
  | .cost, b => { st with processing_cost := b }
  | .documentation, b => { st with processing_docs := b }
  | .repository_structure, b => { st with processing_repo_structure := b }

/-- Python truthiness of a session-state value that is `None` or a
string: `None` and `""` are falsy. -/
def truthy : Option String → Bool
  | none => false
  | some s => if s = "" then false else true

/-- A slot has a (displayable) result exactly when its stored value is
truthy — this is how every guard in the source decides it. -/
def hasResult (st : AppState) (s : Slot) : Bool :=
  truthy (resultOf st s)

/-- Python `str` conversion performed by f-string interpolation on a
value that is `None` or a string: `None` renders as the text `"None"`. -/
def pyFormat : Option String → String
  | none => "None"
  | some s => s

/-- Outcome of one call of the external agent object: a returned response
string (`str(response)` of the source), or a raised exception carrying
its message. -/
inductive AgentOutcome where
  | ok (response : String)
  | raised (message : String)
  deriving Repr, DecidableEq

/-- The external agent collaborator: a pure model mapping the prompt to
an outcome. -/
def AgentModel : Type := String → AgentOutcome

/-! ### Prompt templates of `app.py`

Each template mirrors one f-string of the source; interpolations become
string concatenation.  Upstream-context parameters are `Option String`
because the call sites pass `st.session_state.get(key, '')`, which for the
always-initialized keys returns the raw stored value — possibly Python
`None`, which the f-string renders as `"None"` (`pyFormat`). -/

/-- Prompt of `run_similar_projects_research` (app.py lines 144-180). -/
def similarProjectsPrompt (requirements_text project_name : String) : String :=
  "
Research similar projects in ASUCICREPO for " ++ project_name ++ ":

" ++ requirements_text ++ "

IMPORTANT: Search the GitHub repository ASUCICREPO for ACTUAL existing projects. The repository contains these real projects:

**Document Processing & AI:**
- PDF_Accessibility - PDF remediation tool for WCAG 2.1 compliance with AI-powered alt-text
- PDF_accessability_UI - UI for PDF accessibility tools
- CDM-generation-agent - CDM generation agent

**Chatbots & AI Assistants:**
- Brightpoint - Chatbot code
- kelvyn-park-chat-assistant - Multi-lingual chat assistant for school
- boystown_perplexity_implementation - Serverless API with Perplexity AI integration

**AWS Infrastructure & CDK:**
- BedrockKnowledgeBases - Python CDK construct for Bedrock Knowledge Base with OpenSearch
- Project_Constructs - AWS constructs collection
- amazon-transcribe-live-call-multilingual-contact-center - AWS Transcribe with multilingual support

**Data Analysis & Detection:**
- open-earth - Land cover analysis
- phoenix-pd-gunshot-detection - Detection system for Phoenix PD
- tempe-graffiti - Graffiti detection/analysis
- osu-blueberry - Agricultural/analysis project

Use GitHub MCP tools to:
1. **Search ASUCICREPO** - Find projects that actually match the requirements from the list above
2. **Analyze Architecture** - Look at the actual code and architecture patterns used
3. **Identify Reusable Components** - Find CDK constructs, Lambda patterns, API designs
4. **Reference Real Projects** - Only mention projects that actually exist in the repository
5. **Extract Patterns** - Find common AWS services, deployment patterns, folder structures

Focus ONLY on projects that actually exist in ASUCICREPO. Do not invent or hallucinate project names.
"

/-- Prompt of `run_requirements_analysis` (app.py lines 190-202). -/
def requirementsPrompt (requirements_text project_name : String) : String :=
  "
Analyze requirements for " ++ project_name ++ ":

" ++ requirements_text ++ "

Provide:
1. **Key Functional Requirements** (bullet points)
2. **Key Non-Functional Requirements** (bullet points)
3. **Main Stakeholders** (list)
4. **Success Criteria** (3-5 points)

Keep it concise and focused. No lengthy explanations.
"

/-- Prompt of `run_repository_structure_analysis` (app.py lines 213-250). -/
def repoStructurePrompt (project_name : String) : String :=
  "
Analyze ASUCICREPO repository structure patterns for " ++ project_name ++ ":

Use GitHub MCP tools to examine ACTUAL repository structures in ASUCICREPO. Focus on these real projects:

**CDK Projects to Analyze:**
- BedrockKnowledgeBases - Python CDK construct patterns
- Project_Constructs - AWS constructs collection
- PDF_Accessibility - Document processing with CDK
- boystown_perplexity_implementation - Serverless API structure

**Analysis Tasks:**
1. **Repository Structure** - Examine folder layouts, file organization patterns
2. **CDK Patterns** - Look at actual CDK stack structures, construct usage
3. **File Naming** - Identify naming conventions for stacks, constructs, lambdas
4. **Dependencies** - Check package.json/requirements.txt patterns
5. **Configuration** - Look at cdk.json, tsconfig.json, setup patterns
6. **Lambda Organization** - How Lambda functions are structured and organized
7. **Infrastructure Patterns** - Common AWS service combinations and configurations

Search the repository for:
- `/lib/` folders (CDK stack definitions)
- `/lambda/` or `/src/` folders (Lambda function code)
- `/bin/` folders (CDK app entry points)
- `package.json`, `requirements.txt`, `setup.py` files
- `cdk.json`, `tsconfig.json` configuration files
- README.md files for setup and deployment patterns

Provide detailed analysis of:
1. **Common Folder Structure** (from actual repos)
2. **CDK Stack Patterns** (actual code patterns used)
3. **Lambda Function Organization** (how functions are structured)
4. **Configuration Standards** (actual config file patterns)
5. **Naming Conventions** (from real project examples)
6. **Deployment Patterns** (from actual deployment scripts)

Focus ONLY on patterns from repositories that actually exist in ASUCICREPO.
"

/-- Prompt of `run_architecture_analysis` (app.py lines 391-413). -/
def architecturePrompt (requirements_text project_name : String)
    (similar_projects_context : Option String) : String :=
  "
Design AWS serverless architecture for " ++ project_name ++ ":

" ++ requirements_text ++ "

Similar Projects Context: " ++ pyFormat similar_projects_context ++ "

Reference ACTUAL ASUCICREPO projects when relevant:
- **PDF_Accessibility** - For document processing with AI
- **BedrockKnowledgeBases** - For knowledge bases and RAG patterns
- **boystown_perplexity_implementation** - For serverless APIs with AI integration
- **Brightpoint** or **kelvyn-park-chat-assistant** - For chatbot architectures

Provide:
1. **Architecture Overview** (2-3 sentences)
2. **Key AWS Services** (bullet list with justification based on CIC patterns)
3. **Data Flow** (brief description following CIC approaches)
4. **Security Approach** (3-4 points using CIC best practices)
5. **CIC Project References** - Reference ONLY actual ASUCICREPO projects that use similar patterns
6. **Draw.io XML Diagram** (complete XML that can be imported into draw.io)

Focus on serverless AWS services. Leverage patterns from actual CIC projects. Include complete draw.io XML for architecture diagram.
"

/-- Prompt of the runtime-effective `run_typescript_cdk_generation`
(app.py lines 451-466 — the later of the two definitions of that name,
which shadows the one at lines 258-312). -/
def typescriptCdkPrompt (requirements_text project_name : String)
    (similar_projects_context : Option String) : String :=
  "
Generate TypeScript CDK for " ++ project_name ++ ":

" ++ requirements_text ++ "

Similar Projects Context: " ++ pyFormat similar_projects_context ++ "

Create a simple, working TypeScript CDK stack with:
- Basic AWS services (Lambda, API Gateway, DynamoDB)
- Proper imports and exports
- Clean, readable code following CIC patterns
- Essential configurations only
- Reference similar constructs from ASUCICREPO projects

Provide ONLY TypeScript CDK code, no explanations.
"

/-- Prompt of the runtime-effective `run_python_cdk_generation`
(app.py lines 476-491 — the later of the two definitions of that name,
which shadows the one at lines 320-381). -/
def pythonCdkPrompt (requirements_text project_name : String)
    (similar_projects_context : Option String) : String :=
  "
Generate Python CDK for " ++ project_name ++ ":

" ++ requirements_text ++ "

Similar Projects Context: " ++ pyFormat similar_projects_context ++ "

Create a simple, working Python CDK stack with:
- Basic AWS services (Lambda, API Gateway, DynamoDB)
- Proper imports and constructs
- Clean, readable code following CIC patterns
- Essential configurations only
- Reference similar constructs from ASUCICREPO projects

Provide ONLY Python CDK code, no explanations.
"

/-- Prompt of `run_cost_analysis` (app.py lines 501-513). -/
def costPrompt (requirements_text project_name : String) : String :=
  "
Estimate costs for " ++ project_name ++ ":

" ++ requirements_text ++ "

Provide:
1. **Monthly Cost Estimate** (total number)
2. **Key Cost Drivers** (top 3 services)
3. **Cost Breakdown** (service costs)
4. **Optimization Tips** (3-4 points)

Keep it simple and practical. Focus on actual AWS pricing.
"

/-- Prompt of `run_documentation_generation` (app.py lines 523-546). -/
def documentationPrompt (requirements_text project_name : String)
    (similar_projects_context : Option String) : String :=
  "
Create documentation for " ++ project_name ++ ":

" ++ requirements_text ++ "

Similar Projects Context: " ++ pyFormat similar_projects_context ++ "

Reference ACTUAL ASUCICREPO projects for patterns and best practices:
- **PDF_Accessibility** - Document processing deployment patterns
- **BedrockKnowledgeBases** - CDK construct documentation style
- **boystown_perplexity_implementation** - Serverless API documentation
- **Brightpoint** - Chatbot setup instructions
- **Project_Constructs** - AWS construct documentation patterns

Provide:
1. **Project Overview** (2-3 sentences)
2. **Setup Instructions** (step-by-step, following CIC documentation standards)
3. **API Endpoints** (if applicable, using CIC API documentation style)
4. **Deployment Steps** (simplified, using actual CIC deployment patterns)
5. **Related CIC Projects** - Reference ONLY actual projects from ASUCICREPO
6. **Lessons Learned** - Insights from actual CIC implementations

Keep it practical and concise. Follow documentation patterns from actual CIC projects.
"

/-! ### The per-slot analysis functions

Each `run_*` mirrors one function of `app.py`; the `try`/`except
Exception` around the agent call makes every one of them return a string
for every agent outcome.  `Except String String` is the Python calling
convention of such a function: a `.error` value would mean the function
itself raised — which, as proved below, never happens. -/

/-- Model of `run_similar_projects_research` (app.py lines 142-186). -/
def run_similar_projects_research (ag : AgentModel)
    (requirements_text project_name : String) : Except String String :=
  match ag (similarProjectsPrompt requirements_text project_name) with
  | .ok r => .ok r
  | .raised e => .ok ("Similar projects research failed: " ++ e)

/-- Model of `run_requirements_analysis` (app.py lines 188-208). -/
def run_requirements_analysis (ag : AgentModel)
    (requirements_text project_name : String) : Except String String :=
  match ag (requirementsPrompt requirements_text project_name) with
  | .ok r => .ok r
  | .raised e => .ok ("Requirements analysis failed: " ++ e)

/-- Model of `run_repository_structure_analysis` (app.py lines 211-256). -/
def run_repository_structure_analysis (ag : AgentModel)
    (project_name : String) : Except String String :=
  match ag (repoStructurePrompt project_name) with
  | .ok r => .ok r
  | .raised e => .ok ("Repository structure analysis failed: " ++ e)

/-- Model of `run_architecture_analysis` (app.py lines 389-419). -/
def run_architecture_analysis (ag : AgentModel)
    (requirements_text project_name : String)
    (similar_projects_context : Option String) : Except String String :=
  match ag (architecturePrompt requirements_text project_name similar_projects_context) with
  | .ok r => .ok r
  | .raised e => .ok ("Architecture analysis failed: " ++ e)

/-- The runtime-effective `run_typescript_cdk_generation` (app.py lines
449-472); in Python the `def` at line 449 rebinds the module-level name,
shadowing the 5-parameter definition at lines 258-318. -/
def run_typescript_cdk_generation (ag : AgentModel)
    (requirements_text project_name : String)
    (similar_projects_context : Option String) : Except String String :=
  match ag (typescriptCdkPrompt requirements_text project_name similar_projects_context) with
  | .ok r => .ok r
  | .raised e => .ok ("TypeScript CDK generation failed: " ++ e)

/-- The runtime-effective `run_python_cdk_generation` (app.py lines
474-497); the `def` at line 474 shadows the 5-parameter definition at
lines 320-387. -/
def run_python_cdk_generation (ag : AgentModel)
    (requirements_text project_name : String)
    (similar_projects_context : Option String) : Except String String :=
  match ag (pythonCdkPrompt requirements_text project_name similar_projects_context) with
  | .ok r => .ok r
  | .raised e => .ok ("Python CDK generation failed: " ++ e)

/-- Model of `run_cost_analysis` (app.py lines 499-519). -/
def run_cost_analysis (ag : AgentModel)
    (requirements_text project_name : String) : Except String String :=
  match ag (costPrompt requirements_text project_name) with
  | .ok r => .ok r
  | .raised e => .ok ("Cost analysis failed: " ++ e)

/-- Model of `run_documentation_generation` (app.py lines 521-552). -/
def run_documentation_generation (ag : AgentModel)
    (requirements_text project_name : String)
    (similar_projects_context : Option String) : Except String String :=
  match ag (documentationPrompt requirements_text project_name similar_projects_context) with
  | .ok r => .ok r
  | .raised e => .ok ("Documentation generation failed: " ++ e)

/-- Model of `background_analysis` (app.py lines 554-560), applied to the outcome
of evaluating `analysis_func(*args)` inside its `try` block: a returned
string passes through, a raised exception becomes the failure string. -/
def background_analysis (call : Except String String) : String :=
  match call with
  | .ok r => r
  | .error e => "Background analysis failed: " ++ e

/-- CPython message of the `TypeError` raised by the five-positional-
argument call at app.py lines 888-895 against the four-parameter
runtime-effective `run_typescript_cdk_generation`. -/
def typescriptArityMessage : String :=
  "run_typescript_cdk_generation() takes from 3 to 4 positional arguments but 5 were given"

/-- CPython message of the `TypeError` raised by the five-positional-
argument call at app.py lines 933-940 against the four-parameter
runtime-effective `run_python_cdk_generation`. -/
def pythonArityMessage : String :=
  "run_python_cdk_generation() takes from 3 to 4 positional arguments but 5 were given"

/-- The evaluation of `analysis_func(*args)` performed inside
`background_analysis` by the pending branch of slot `s`'s tab, paired
with the list of prompts passed to the external agent during that
evaluation.  The argument lists are those of the `background_analysis`
call sites in `main()`:
* similar_projects (app.py lines 723-728), requirements (761-766),
  cost (995-999) and repository_structure (858-862) call a
  matching-arity function, which makes exactly one agent call;
* architecture (799-805) and documentation (1033-1039) additionally pass
  `st.session_state.get('similar_projects_research', '')`; that key
  always exists (init loop, lines 638-640), so the raw stored value is
  passed — possibly Python `None`;
* typescript_cdk (888-895) and python_cdk (933-940) pass five positional
  arguments to the runtime-effective four-parameter functions, so CPython
  raises `TypeError` before any function body runs: no agent call is made
  and the evaluation is the raised error. -/
def slotCall (ag : AgentModel) (st : AppState) :
    Slot → Except String String × List String
  | .similar_projects =>
      (run_similar_projects_research ag st.requirements_text st.project_name,
       [similarProjectsPrompt st.requirements_text st.project_name])
  | .requirements =>
      (run_requirements_analysis ag st.requirements_text st.project_name,
       [requirementsPrompt st.requirements_text st.project_name])
  | .architecture =>
      (run_architecture_analysis ag st.requirements_text st.project_name
         st.similar_projects_research,
       [architecturePrompt st.requirements_text st.project_name
         st.similar_projects_research])
  | .typescript_cdk => (.error typescriptArityMessage, [])
  | .python_cdk => (.error pythonArityMessage, [])
  | .cost =>
      (run_cost_analysis ag st.requirements_text st.project_name,
       [costPrompt st.requirements_text st.project_name])
  | .documentation =>
      (run_documentation_generation ag st.requirements_text st.project_name
         st.similar_projects_research,
       [documentationPrompt st.requirements_text st.project_name
         st.similar_projects_research])
  | .repository_structure =>
      (run_repository_structure_analysis ag st.project_name,
       [repoStructurePrompt st.project_name])

/-- The slots whose pending branch reaches the external agent call.  The
two CDK slots are excluded: their `background_analysis` calls raise
`TypeError` before any agent call (see `slotCall`). -/
def agentCallSlots : List Slot :=
  [.similar_projects, .requirements, .architecture, .cost,
   .documentation, .repository_structure]

/-- One pass of slot `s`'s tab over its processing branch, e.g. app.py
lines 715-731 for similar_projects: when
`st.session_state.get('processing_X') and not st.session_state.get(X)`,
run `background_analysis`, store the returned string, set the processing
flag to `False`, rerun.  Returns the new state and the prompts sent to
the external agent during the pass. -/
def run_pending (ag : AgentModel) (st : AppState) (s : Slot) :
    AppState × List String :=
  if processingOf st s && !truthy (resultOf st s) then
    let call := slotCall ag st s
    (setProcessing (setResult st s (some (background_analysis call.1))) s false,
     call.2)
  else (st, [])

/-- Errors surfaced by the interaction layer. -/
inductive AppError where
  | notInitialized
  deriving Repr, DecidableEq

/-- A click on slot `s`'s trigger button.  In the source the trigger
buttons exist only inside the `if st.session_state.get('project_initialized')`
block (app.py lines 697-1053); before initialization the page shows only
the info prompt of line 1056 and no slot state can change — modelled as
the `notInitialized` error with the state returned unchanged.  When
initialized, the click handler sets the slot's processing flag to `True`
and reruns (e.g. lines 710-712). -/
def trigger (st : AppState) (s : Slot) : AppState × Option AppError :=
  if st.project_initialized then (setProcessing st s true, none)
  else (st, some .notInitialized)

/-- The `Initialize Project` button (app.py lines 680-688): when both
text fields are non-empty (Python truthiness), store them and set
`project_initialized`; otherwise only a warning is shown. -/
def initialize_project (st : AppState) (name text : String) : AppState :=
  if text ≠ "" ∧ name ≠ "" then
    { st with project_name := name, requirements_text := text,
              project_initialized := true }
  else st

/-- The `Clear All Analysis` button (app.py lines 690-694).  Its loop
iterates `analysis_types + processing_types` as bound at lines 628-636;
those lists do NOT contain `repository_structure` or
`processing_repo_structure` (the re-bindings at lines 968-976 sit inside
a tab branch and never affect this handler, which calls `st.rerun()`
immediately), and neither `project_name` nor `requirements_text` is in
them.  `project_initialized` is in `analysis_types` and is set to `None`
(falsy). -/
def clear_all (st : AppState) : AppState :=
  { st with
    similar_projects_research := none
    requirements_analysis := none
    architecture_analysis := none
    typescript_cdk := none
    python_cdk := none
    cost_analysis := none
    documentation := none
    processing_similar_projects := false
    processing_requirements := false
    processing_architecture := false
    processing_typescript := false
    processing_python := false
    processing_cost := false
    processing_docs := false
    project_initialized := false }

/-- The three-way display state of a slot's tab. -/
inductive SlotView where
  | idle
  | inProgress
  | completed (text : String)
  deriving Repr, DecidableEq

/-- The display classification every tab computes (e.g. app.py lines
715-742): `if processing_X and not X` show the progress indicator,
`elif X` show the stored result, `else` the idle prompt.
(The repository_structure block has no `else` idle message, lines
851-869; state-wise it is still idle.) -/
def render_view (st : AppState) (s : Slot) : SlotView :=
  if processingOf st s && !truthy (resultOf st s) then .inProgress
  else if truthy (resultOf st s) then .completed ((resultOf st s).getD "")
  else .idle

/-! ### Python string split/containment, and the architecture renderer -/

/-- Python `sub in s` on lists of characters: contiguous substring
test. -/
def pyContainsSeq (sub : List Char) : List Char → Bool
  | [] => sub.isEmpty
  | c :: rest => sub.isPrefixOf (c :: rest) || pyContainsSeq sub rest

/-- Python `s.split(sep)` for a non-empty separator, on lists of
characters: scan left to right, cutting at every (non-overlapping)
occurrence of the separator.  The separator is passed as a head
character plus the rest so that it is non-empty by construction.  The
`fuel` argument is only a structural recursion bound: the scanned list
shrinks at every step, so any `fuel ≥ s.length` computes the split and
the `fuel = 0` fallback row is unreachable from `pySplitSeq`. -/
def pySplitFuel (c0 : Char) (sepRest : List Char) : Nat → List Char → List (List Char)
  | _, [] => [[]]
  | 0, s => [s]
  | fuel + 1, c :: rest =>
    if (c0 :: sepRest).isPrefixOf (c :: rest) then
      [] :: pySplitFuel c0 sepRest fuel (rest.drop sepRest.length)
    else
      match pySplitFuel c0 sepRest fuel rest with
      | [] => [[c]]
      | h :: t => (c :: h) :: t

/-- Python `s.split(c0 :: sepRest)` on lists of characters. -/
def pySplitSeq (c0 : Char) (sepRest : List Char) (s : List Char) : List (List Char) :=
  pySplitFuel c0 sepRest s.length s

/-- Python `sub in s` at string level. -/
def pyContains (s sub : String) : Bool :=
  pyContainsSeq sub.data s.data

/-- Python `s.split(sep)` at string level (for the empty separator Python
raises `ValueError`; that case is never used — both markers are
non-empty). -/
def pySplitStr (sep s : String) : List String :=
  match sep.data with
  | [] => [s]
  | c0 :: rest => (pySplitSeq c0 rest s.data).map String.mk

/-- What the architecture tab's completed branch displays. -/
inductive ArchView where
  | plain (text : String)
  | twoRegions (text_part xml_part : String)
  deriving Repr, DecidableEq

/-- The marker the architecture renderer splits on:
`"<?xml" if "<?xml" in arch_response else "<mxfile"` (app.py line 816). -/
def archMarker (resp : String) : String :=
  if pyContains resp "<?xml" then "<?xml" else "<mxfile"

/-- The completed branch of the architecture tab (app.py lines 810-827):
if the stored response contains `"<mxfile"` or `"<?xml"`, split it on
`archMarker` and display `parts[0]` as prose and, when the split produced
more than one part, the marker re-joined with `parts[1]` as the XML
region (only `parts[1]`: text after a second occurrence of the marker is
not part of either region).  Otherwise display the whole response. -/
def renderArchitecture (resp : String) : ArchView :=
  if pyContains resp "<mxfile" || pyContains resp "<?xml" then
    ArchView.twoRegions ((pySplitStr (archMarker resp) resp).headD "")
      (if (pySplitStr (archMarker resp) resp).length > 1 then
        archMarker resp ++ (pySplitStr (archMarker resp) resp).getD 1 ""
      else "")
  else ArchView.plain resp

/-! ### Export (download) surfaces -/

/-- One download affordance: `st.download_button(file_name, data, mime)`. -/
structure ExportFile where
  file_name : String
  data : String
  mime : String
  deriving Repr, DecidableEq

/-- The download affordance of `app.py` for slot `s`: offered exactly in
the `elif st.session_state.get(X):` display branch, with `data` the
stored result itself.  All seven buttons use an `.md` file name and
`text/markdown` (lines 735-740, 773-778, 829-834, 908-913, 953-958,
1007-1012, 1046-1051); the repository_structure expander has no download
button (lines 867-869). -/
def export_app (st : AppState) (s : Slot) : Option ExportFile :=
  match resultOf st s with
  | some r =>
    if r = "" then none else
    match s with
    | .similar_projects =>
        some ⟨st.project_name ++ "_similar_projects.md", r, "text/markdown"⟩
    | .requirements =>
        some ⟨st.project_name ++ "_requirements.md", r, "text/markdown"⟩
    | .architecture =>
        some ⟨st.project_name ++ "_architecture.md", r, "text/markdown"⟩
    | .typescript_cdk =>
        some ⟨st.project_name ++ "_typescript_cdk_complete.md", r, "text/markdown"⟩
    | .python_cdk =>
        some ⟨st.project_name ++ "_python_cdk_complete.md", r, "text/markdown"⟩
    | .cost =>
        some ⟨st.project_name ++ "_costs.md", r, "text/markdown"⟩
    | .documentation =>
        some ⟨st.project_name ++ "_docs.md", r, "text/markdown"⟩
    | .repository_structure => none
  | none => none

/-- The download affordance of `app1.py` for slot `s` (lines 451-456,
506-511, 548-553, 583-588, 621-626, 659-664): prose slots download as
`.md` / `text/markdown`, the two CDK slots as `_cdk.ts` / `_cdk.py` with
`text/plain`.  The similar_projects and repository_structure slots do not
exist in `app1.py`. -/
def export_app1 (st : AppState) (s : Slot) : Option ExportFile :=
  match resultOf st s with
  | some r =>
    if r = "" then none else
    match s with
    | .requirements =>
        some ⟨st.project_name ++ "_requirements.md", r, "text/markdown"⟩
    | .architecture =>
        some ⟨st.project_name ++ "_architecture.md", r, "text/markdown"⟩
    | .typescript_cdk =>
        some ⟨st.project_name ++ "_cdk.ts", r, "text/plain"⟩
    | .python_cdk =>
        some ⟨st.project_name ++ "_cdk.py", r, "text/plain"⟩
    | .cost =>
        some ⟨st.project_name ++ "_costs.md", r, "text/markdown"⟩
    | .documentation =>
        some ⟨st.project_name ++ "_docs.md", r, "text/markdown"⟩
    | _ => none
  | none => none

/-- The text stored by the `except` branch of each slot's `run_*`
function when the agent call raises, up to the interpolated message. -/
def failureLabel : Slot → String
  | .similar_projects => "Similar projects research failed: "
  | .requirements => "Requirements analysis failed: "
  | .architecture => "Architecture analysis failed: "
  | .typescript_cdk => "TypeScript CDK generation failed: "
  | .python_cdk => "Python CDK generation failed: "
  | .cost => "Cost analysis failed: "
  | .documentation => "Documentation generation failed: "
  | .repository_structure => "Repository structure analysis failed: "

/-- Join a list of chunks with a separator between consecutive chunks —
the inverse direction of `pySplitFuel`. -/
def joinSep (sep : List Char) : List (List Char) → List Char
  | [] => []
  | [x] => x
  | x :: xs => x ++ sep ++ joinSep sep xs

/-! ### Spec-side export tables (for comparison with the source tables)

These two definitions follow the wording of the amended export claim, to
be compared with `export_app` / `export_app1` as translated from the
source. -/

/-- Spec-side description of the app.py export surface: every slot other
than repository_structure downloads the stored text under a fixed `.md`
suffix with media type `text/markdown` (the two CDK slots included);
repository_structure offers no download. -/
def exportAppSpec (name r : String) : Slot → Option ExportFile
  | .similar_projects => some ⟨name ++ "_similar_projects.md", r, "text/markdown"⟩
  | .requirements => some ⟨name ++ "_requirements.md", r, "text/markdown"⟩
  | .architecture => some ⟨name ++ "_architecture.md", r, "text/markdown"⟩
  | .typescript_cdk => some ⟨name ++ "_typescript_cdk_complete.md", r, "text/markdown"⟩
  | .python_cdk => some ⟨name ++ "_python_cdk_complete.md", r, "text/markdown"⟩
  | .cost => some ⟨name ++ "_costs.md", r, "text/markdown"⟩
  | .documentation => some ⟨name ++ "_docs.md", r, "text/markdown"⟩
  | .repository_structure => none

/-- Spec-side description of the app1.py export surface: prose slots
download as `.md` / `text/markdown`, the code slots as `_cdk.ts` /
`_cdk.py` with `text/plain`; the similar_projects and
repository_structure slots do not exist there. -/
def exportApp1Spec (name r : String) : Slot → Option ExportFile
  | .similar_projects => none
  | .requirements => some ⟨name ++ "_requirements.md", r, "text/markdown"⟩
  | .architecture => some ⟨name ++ "_architecture.md", r, "text/markdown"⟩
  | .typescript_cdk => some ⟨name ++ "_cdk.ts", r, "text/plain"⟩
  | .python_cdk => some ⟨name ++ "_cdk.py", r, "text/plain"⟩
  | .cost => some ⟨name ++ "_costs.md", r, "text/markdown"⟩
  | .documentation => some ⟨name ++ "_docs.md", r, "text/markdown"⟩
  | .repository_structure => none

/-! ### Concrete fixtures used by witnesses and counterexamples -/

/-- An agent that answers every prompt with the same response string. -/
def okAgent (resp : String) : AgentModel := fun _ => .ok resp

/-- An agent whose call raises on every prompt. -/
def raisingAgent (msg : String) : AgentModel := fun _ => .raised msg

/-- A fresh session right after the init loop of `main()` first ran:
every analysis key holds `None`, every processing flag is `False`,
nothing is initialized. -/
def freshState : AppState where
  similar_projects_research := none
  requirements_analysis := none
  architecture_analysis := none
  typescript_cdk := none
  python_cdk := none
  cost_analysis := none
  documentation := none
  repository_structure := none
  processing_similar_projects := false
  processing_requirements := false
  processing_architecture := false
  processing_typescript := false
  processing_python := false
  processing_cost := false
  processing_docs := false
  processing_repo_structure := false
  project_initialized := false
  project_name := ""
  requirements_text := ""

/-- A session initialized with the scenario inputs of the spec. -/
def demoState : AppState :=
  initialize_project freshState "acme" "Build a PDF uploader"

/-- The cost slot is pending (triggered, no result yet). -/
def pendingCostState : AppState :=
  { demoState with processing_cost := true }

/-- The cost slot holds a completed result. -/
def completedCostState : AppState :=
  { demoState with cost_analysis := some "Costs are low" }

/-- The cost slot holds a stored empty-string result. -/
def emptyCostState : AppState :=
  { demoState with cost_analysis := some "" }

/-- A session with a completed repository-structure analysis and a cost
result, with the repository-structure flag still set. -/
def clearDemoState : AppState :=
  { demoState with
      repository_structure := some "Repo structure analysis text",
      processing_repo_structure := true,
      cost_analysis := some "Costs are low" }

/-- A session with completed typescript_cdk and repository_structure
results. -/
def exportDemoState : AppState :=
  { demoState with
      typescript_cdk := some "const app = new cdk.App();",
      repository_structure := some "Repo structure analysis text" }

/-- Every upstream absent while the CDK and architecture jobs are
pending. -/
def pendingDownstreamState : AppState :=
  { demoState with
      processing_typescript := true,
      processing_python := true,
      processing_architecture := true }

/-- An architecture response with prose followed by a single XML
marker. -/
def archDemoResponse : String :=
  "Overview of the design. <?xml version ok and the diagram body"

/-- A session whose architecture slot stores `archDemoResponse`. -/
def archDemoState : AppState :=
  { demoState with architecture_analysis := some archDemoResponse }

/-- An architecture response in which the marker occurs twice. -/
def archDoubleMarkerResponse : String := "A<?xmlB<?xmlC"

/-! ## State-accessor lemmas -/

theorem processingOf_setProcessing_self (st : AppState) (s : Slot) (b : Bool) :
    processingOf (setProcessing st s b) s = b := by
  cases s <;> rfl

theorem resultOf_setProcessing (st : AppState) (s : Slot) (b : Bool) (s' : Slot) :
    resultOf (setProcessing st s b) s' = resultOf st s' := by
  cases s <;> cases s' <;> rfl

theorem processingOf_setResult (st : AppState) (s : Slot) (v : Option String) (s' : Slot) :
    processingOf (setResult st s v) s' = processingOf st s' := by
  cases s <;> cases s' <;> rfl

theorem resultOf_setResult_self (st : AppState) (s : Slot) (v : Option String) :
    resultOf (setResult st s v) s = v := by
  cases s <;> rfl

theorem truthy_some_ne (s : String) (h : s ≠ "") : truthy (some s) = true := by
  simp [truthy, h]

theorem append_ne_empty_of_left (l e : String) (hl : l.data ≠ []) : l ++ e ≠ "" := by
  intro h
  apply hl
  have hd := congrArg String.data h
  rw [String.data_append] at hd
  exact (List.append_eq_nil.mp hd).1

theorem failureLabel_append_ne (s : Slot) (e : String) : failureLabel s ++ e ≠ "" := by
  apply append_ne_empty_of_left
  cases s <;> decide

/-! ## C1 -/

/-- C1: for every slot, every run of the pending job ends with the
slot's processing flag false, whatever the external agent does — return
a normal string, return an empty string, or raise. -/
theorem C1_run_pending_clears_in_progress (ag : AgentModel) (st : AppState)
    (s : Slot) (hp : processingOf st s = true)
    (hr : truthy (resultOf st s) = false) :
    processingOf (run_pending ag st s).1 s = false := by
  unfold run_pending
  rw [hp, hr]
  simp [processingOf_setProcessing_self]

/-- Witness for C1: concrete pending cost slot, raising agent. -/
theorem C1_witness :
    processingOf (run_pending (raisingAgent "boom") pendingCostState .cost).1 .cost
      = false :=
  C1_run_pending_clears_in_progress (raisingAgent "boom") pendingCostState .cost
    (by decide) (by decide)

/-! ## C2 -/

/-- C2: triggering a slot again when its result is already set (a truthy
stored string — the sense in which every guard of the source reads a
result as present) makes no further external agent call and leaves the
stored result unchanged; only `clear_all` removes the result and
re-enables the call. -/
theorem C2_retrigger_after_result_noop (ag : AgentModel) (st : AppState)
    (s : Slot) (hinit : st.project_initialized = true)
    (hres : hasResult st s = true) :
    (run_pending ag (trigger st s).1 s).2 = [] ∧
    resultOf (run_pending ag (trigger st s).1 s).1 s = resultOf st s := by
  have htr : (trigger st s).1 = setProcessing st s true := by
    simp [trigger, hinit]
  rw [htr]
  unfold hasResult at hres
  unfold run_pending
  rw [processingOf_setProcessing_self, resultOf_setProcessing, hres]
  simp [resultOf_setProcessing]

/-- Witness for C2: the cost slot already holds a result; a re-trigger
followed by the rerun pass makes no agent call and keeps the result. -/
theorem C2_witness :
    (run_pending (okAgent "second answer")
        (trigger completedCostState .cost).1 .cost).2 = [] ∧
    resultOf (run_pending (okAgent "second answer")
        (trigger completedCostState .cost).1 .cost).1 .cost
      = resultOf completedCostState .cost :=
  C2_retrigger_after_result_noop (okAgent "second answer") completedCostState .cost
    (by decide) (by decide)

/-! ## C3 -/

/-- Counterexample to C3: after `Clear All Analysis` on a session whose
repository-structure analysis had completed, the repository_structure
slot still holds its result, its processing flag is still set, and the
requirements text of the Project Context survives unchanged. -/
theorem C3_counterexample :
    resultOf (clear_all clearDemoState) .repository_structure
      = some "Repo structure analysis text" ∧
    processingOf (clear_all clearDemoState) .repository_structure = true ∧
    (clear_all clearDemoState).requirements_text = "Build a PDF uploader" ∧
    (clear_all clearDemoState).project_name = "acme" := by
  refine ⟨rfl, rfl, ?_, ?_⟩ <;> decide

/-- C3 (amended): the Clear-All handler resets exactly the keys in the
lists bound at app.py lines 628-636 — the seven analysis slots other
than repository_structure, their seven processing flags, and
`project_initialized` — and leaves the repository_structure slot, its
processing flag, `project_name` and `requirements_text` untouched. -/
theorem C3_amended_clear_all_exact (st : AppState) :
    resultOf (clear_all st) .similar_projects = none ∧
    resultOf (clear_all st) .requirements = none ∧
    resultOf (clear_all st) .architecture = none ∧
    resultOf (clear_all st) .typescript_cdk = none ∧
    resultOf (clear_all st) .python_cdk = none ∧
    resultOf (clear_all st) .cost = none ∧
    resultOf (clear_all st) .documentation = none ∧
    processingOf (clear_all st) .similar_projects = false ∧
    processingOf (clear_all st) .requirements = false ∧
    processingOf (clear_all st) .architecture = false ∧
    processingOf (clear_all st) .typescript_cdk = false ∧
    processingOf (clear_all st) .python_cdk = false ∧
    processingOf (clear_all st) .cost = false ∧
    processingOf (clear_all st) .documentation = false ∧
    (clear_all st).project_initialized = false ∧
    resultOf (clear_all st) .repository_structure
      = resultOf st .repository_structure ∧
    processingOf (clear_all st) .repository_structure
      = processingOf st .repository_structure ∧
    (clear_all st).project_name = st.project_name ∧
    (clear_all st).requirements_text = st.requirements_text :=
  ⟨rfl, rfl, rfl, rfl, rfl, rfl, rfl, rfl, rfl, rfl, rfl, rfl, rfl, rfl, rfl,
   rfl, rfl, rfl, rfl⟩

/-! ## C8 -/

/-- C8: a trigger of any slot before Project Context initialization
fails with `notInitialized` and returns the state — every slot's result
and processing flag — unchanged. -/
theorem C8_trigger_before_init (st : AppState) (s : Slot)
    (h : st.project_initialized = false) :
    (trigger st s).1 = st ∧ (trigger st s).2 = some .notInitialized := by
  simp [trigger, h]

/-- Witness for C8 on the fresh uninitialized session. -/
theorem C8_witness :
    (trigger freshState .requirements).1 = freshState ∧
    (trigger freshState .requirements).2 = some .notInitialized :=
  C8_trigger_before_init freshState .requirements (by decide)

/-! ## C10 -/

/-- C10: every per-slot analysis function is total with respect to agent
exceptions — it returns a string for every agent behaviour and never
raises — so `background_analysis` can reach its error branch only when
the call of the function itself fails, never for an agent-call
exception; on an ok value it passes the string through unchanged. -/
theorem C10_run_functions_total (ag : AgentModel) (rt pn e : String)
    (ctx : Option String) :
    (run_similar_projects_research ag rt pn).isOk = true ∧
    (run_requirements_analysis ag rt pn).isOk = true ∧
    (run_repository_structure_analysis ag pn).isOk = true ∧
    (run_architecture_analysis ag rt pn ctx).isOk = true ∧
    (run_typescript_cdk_generation ag rt pn ctx).isOk = true ∧
    (run_python_cdk_generation ag rt pn ctx).isOk = true ∧
    (run_cost_analysis ag rt pn).isOk = true ∧
    (run_documentation_generation ag rt pn ctx).isOk = true ∧
    background_analysis (Except.ok e) = e := by
  refine ⟨?_, ?_, ?_, ?_, ?_, ?_, ?_, ?_, rfl⟩
  · rcases h : ag (similarProjectsPrompt rt pn) with r | m <;>
      simp [run_similar_projects_research, h, Except.isOk, Except.toBool]
  · rcases h : ag (requirementsPrompt rt pn) with r | m <;>
      simp [run_requirements_analysis, h, Except.isOk, Except.toBool]
  · rcases h : ag (repoStructurePrompt pn) with r | m <;>
      simp [run_repository_structure_analysis, h, Except.isOk, Except.toBool]
  · rcases h : ag (architecturePrompt rt pn ctx) with r | m <;>
      simp [run_architecture_analysis, h, Except.isOk, Except.toBool]
  · rcases h : ag (typescriptCdkPrompt rt pn ctx) with r | m <;>
      simp [run_typescript_cdk_generation, h, Except.isOk, Except.toBool]
  · rcases h : ag (pythonCdkPrompt rt pn ctx) with r | m <;>
      simp [run_python_cdk_generation, h, Except.isOk, Except.toBool]
  · rcases h : ag (costPrompt rt pn) with r | m <;>
      simp [run_cost_analysis, h, Except.isOk, Except.toBool]
  · rcases h : ag (documentationPrompt rt pn ctx) with r | m <;>
      simp [run_documentation_generation, h, Except.isOk, Except.toBool]

/-! ## C4 -/

/-- C4: for every slot whose pending job reaches the external call, a
raised agent exception is caught at the job boundary and stored as the
string `"<Capability> failed: <message>"`; it propagates no further, the
slot renders the same Completed view a success would, and the processing
flag ends false.  (The two CDK slots never reach the external call — see
the C5 evidence — so no agent exception can arise there.) -/
theorem C4_agent_raise_caught (st : AppState) (s : Slot) (e : String)
    (hs : s ∈ agentCallSlots)
    (hp : processingOf st s = true)
    (hr : truthy (resultOf st s) = false) :
    resultOf (run_pending (raisingAgent e) st s).1 s
      = some (failureLabel s ++ e) ∧
    render_view (run_pending (raisingAgent e) st s).1 s
      = .completed (failureLabel s ++ e) ∧
    processingOf (run_pending (raisingAgent e) st s).1 s = false := by
  have hne := failureLabel_append_ne s e
  fin_cases hs <;>
    simp_all [run_pending, slotCall, raisingAgent, background_analysis,
      run_similar_projects_research, run_requirements_analysis,
      run_architecture_analysis, run_cost_analysis,
      run_documentation_generation, run_repository_structure_analysis,
      failureLabel, render_view, truthy,
      resultOf_setResult_self, processingOf_setProcessing_self,
      resultOf_setProcessing, processingOf_setResult]

/-- Witness for C4: the pending cost slot with a raising agent ends
Completed with the formatted failure text and a cleared flag. -/
theorem C4_witness :
    resultOf (run_pending (raisingAgent "boom") pendingCostState .cost).1 .cost
      = some (failureLabel .cost ++ "boom") ∧
    render_view (run_pending (raisingAgent "boom") pendingCostState .cost).1 .cost
      = .completed (failureLabel .cost ++ "boom") ∧
    processingOf (run_pending (raisingAgent "boom") pendingCostState .cost).1 .cost
      = false :=
  C4_agent_raise_caught pendingCostState .cost "boom" (by decide) (by decide)
    (by decide)

/-! ## C9 -/

/-- C9: a stored empty-string result is indistinguishable from an absent
one at the public interface: the view renders Idle, no export is
offered, and a further trigger runs the job again — for every slot whose
job reaches the agent this makes one more external call even though a
result had been stored. -/
theorem C9_empty_result_absent (ag : AgentModel) (st : AppState) (s : Slot)
    (hres : resultOf st s = some "")
    (hp : processingOf st s = false)
    (hinit : st.project_initialized = true) :
    render_view st s = .idle ∧
    export_app st s = none ∧
    (s ∈ agentCallSlots →
      (run_pending ag (trigger st s).1 s).2.length = 1) := by
  refine ⟨?_, ?_, ?_⟩
  · simp [render_view, hres, hp, truthy]
  · simp [export_app, hres]
  · intro hmem
    have htr : (trigger st s).1 = setProcessing st s true := by
      simp [trigger, hinit]
    rw [htr]
    fin_cases hmem <;>
      simp_all [run_pending, processingOf_setProcessing_self,
        resultOf_setProcessing, truthy, slotCall]

/-- Witness for C9: the cost slot stores the empty string; the view is
Idle, export is withheld, and a re-trigger makes one more agent call. -/
theorem C9_witness :
    render_view emptyCostState .cost = .idle ∧
    export_app emptyCostState .cost = none ∧
    (Slot.cost ∈ agentCallSlots →
      (run_pending (okAgent "retry")
        (trigger emptyCostState .cost).1 .cost).2.length = 1) :=
  C9_empty_result_absent (okAgent "retry") emptyCostState .cost rfl
    (by decide) (by decide)

/-! ## C7 -/

/-- Counterexample to C7: in app.py the typescript_cdk download is an
`.md` file with media type text/markdown — not plain text — and the
stored repository_structure result has no export affordance at all. -/
theorem C7_counterexample :
    export_app exportDemoState .typescript_cdk =
      some ⟨"acme_typescript_cdk_complete.md", "const app = new cdk.App();",
            "text/markdown"⟩ ∧
    ("text/markdown" : String) ≠ "text/plain" ∧
    resultOf exportDemoState .repository_structure ≠ none ∧
    export_app exportDemoState .repository_structure = none := by
  refine ⟨by decide, by decide, by decide, by decide⟩

/-- C7 (amended): for every slot with a truthy stored result, the app.py
export returns the stored string byte-for-byte under the deterministic
name `{project_name}{suffix}.md` with media type text/markdown — for the
code slots as well — and repository_structure has no export; in app1.py
the code slots export as `{project_name}_cdk.ts` / `_cdk.py` with
text/plain, the prose slots as markdown, again byte-for-byte. -/
theorem C7_amended_export_tables (st : AppState) (s : Slot) (r : String)
    (hres : resultOf st s = some r) (hr : r ≠ "") :
    export_app st s = exportAppSpec st.project_name r s ∧
    export_app1 st s = exportApp1Spec st.project_name r s := by
  constructor <;>
    cases s <;>
      simp_all [export_app, export_app1, exportAppSpec, exportApp1Spec,
        resultOf, hr]

/-- Witness for C7 (amended) at the completed cost slot. -/
theorem C7_witness :
    export_app completedCostState .cost
      = exportAppSpec completedCostState.project_name "Costs are low" .cost ∧
    export_app1 completedCostState .cost
      = exportApp1Spec completedCostState.project_name "Costs are low" .cost :=
  C7_amended_export_tables completedCostState .cost "Costs are low" rfl
    (by decide)

/-! ## C5 -/

/-- C5 (code evidence): with every upstream absent, the typescript_cdk
and python_cdk jobs make no external call at all — the five-positional-
argument call of the shadowing four-parameter functions raises
`TypeError`, which `background_analysis` converts into the stored
`"Background analysis failed: ..."` string — and the architecture job
passes the Python `None` stored in `similar_projects_research` into its
prompt, which the f-string renders as the text `"None"`, not as the
empty string. -/
theorem C5_downstream_jobs_evidence (ag : AgentModel) :
    (run_pending ag pendingDownstreamState .typescript_cdk).2 = [] ∧
    resultOf (run_pending ag pendingDownstreamState .typescript_cdk).1
        .typescript_cdk
      = some ("Background analysis failed: " ++ typescriptArityMessage) ∧
    (run_pending ag pendingDownstreamState .python_cdk).2 = [] ∧
    resultOf (run_pending ag pendingDownstreamState .python_cdk).1 .python_cdk
      = some ("Background analysis failed: " ++ pythonArityMessage) ∧
    (run_pending ag pendingDownstreamState .architecture).2
      = [architecturePrompt pendingDownstreamState.requirements_text
          pendingDownstreamState.project_name none] ∧
    pyFormat none = "None" ∧ ("None" : String) ≠ "" := by
  refine ⟨rfl, rfl, rfl, rfl, rfl, rfl, by decide⟩

/-! ## Lemmas about the Python split model -/

theorem pySplitFuel_ne_nil (c0 : Char) (r : List Char) :
    ∀ (fuel : Nat) (s : List Char), pySplitFuel c0 r fuel s ≠ [] := by
  intro fuel
  induction fuel with
  | zero => intro s; cases s <;> simp [pySplitFuel]
  | succ n _ =>
    intro s
    cases s with
    | nil => simp [pySplitFuel]
    | cons c rest =>
      simp only [pySplitFuel]
      split
      · simp
      · split <;> simp

theorem joinSep_pySplitFuel (c0 : Char) (r : List Char) :
    ∀ (fuel : Nat) (s : List Char), s.length ≤ fuel →
      joinSep (c0 :: r) (pySplitFuel c0 r fuel s) = s := by
  intro fuel
  induction fuel with
  | zero =>
    intro s hs
    have hnil : s = [] := List.eq_nil_of_length_eq_zero (Nat.le_zero.mp hs)
    subst hnil
    rfl
  | succ n ih =>
    intro s hs
    cases s with
    | nil => rfl
    | cons c rest =>
      simp only [pySplitFuel]
      split
      case isTrue hpre =>
        obtain ⟨h, t, hL⟩ :=
          List.exists_cons_of_ne_nil (pySplitFuel_ne_nil c0 r n (rest.drop r.length))
        rw [hL]
        have hjoin : joinSep (c0 :: r) ([] :: h :: t)
            = (c0 :: r) ++ joinSep (c0 :: r) (h :: t) := rfl
        rw [hjoin, ← hL]
        have hdlen : (rest.drop r.length).length ≤ n := by
          simp only [List.length_drop]
          simp at hs
          omega
        rw [ih (rest.drop r.length) hdlen]
        have hp : (c0 :: r) <+: (c :: rest) := List.isPrefixOf_iff_prefix.mp hpre
        obtain ⟨t2, ht2⟩ := hp
        have hdrop : rest.drop r.length = t2 := by
          have hstep := congrArg (List.drop (c0 :: r).length) ht2
          rw [List.drop_left] at hstep
          simpa [List.drop_succ_cons] using hstep.symm
        rw [hdrop, ht2]
      case isFalse hpre =>
        obtain ⟨h, t, hL⟩ :=
          List.exists_cons_of_ne_nil (pySplitFuel_ne_nil c0 r n rest)
        rw [hL]
        have hjoin : joinSep (c0 :: r) ((c :: h) :: t)
            = c :: joinSep (c0 :: r) (h :: t) := by
          cases t <;> rfl
        rw [hjoin, ← hL]
        have hlen : rest.length ≤ n := by simp at hs; omega
        rw [ih rest hlen]

theorem pySplitFuel_head_isPre (c0 : Char) (r : List Char) :
    ∀ (fuel : Nat) (s h : List Char) (t : List (List Char)),
      pySplitFuel c0 r fuel s = h :: t → h <+: s := by
  intro fuel
  induction fuel with
  | zero =>
    intro s h t heq
    cases s with
    | nil =>
      simp [pySplitFuel] at heq
      obtain ⟨rfl, rfl⟩ := heq
      exact ⟨_, rfl⟩
    | cons c rest =>
      simp [pySplitFuel] at heq
      obtain ⟨rfl, rfl⟩ := heq
      exact ⟨[], List.append_nil _⟩
  | succ n ih =>
    intro s h t heq
    cases s with
    | nil =>
      simp [pySplitFuel] at heq
      obtain ⟨rfl, rfl⟩ := heq
      exact ⟨_, rfl⟩
    | cons c rest =>
      simp only [pySplitFuel] at heq
      split at heq
      case isTrue hpre =>
        injection heq with hh _
        cases hh
        exact ⟨_, rfl⟩
      case isFalse hpre =>
        rcases h2 : pySplitFuel c0 r n rest with _ | ⟨h', t'⟩
        · exact absurd h2 (pySplitFuel_ne_nil c0 r n rest)
        · rw [h2] at heq
          injection heq with hh _
          cases hh
          exact List.cons_prefix_cons.mpr ⟨rfl, ih rest h' t' h2⟩

theorem pySplitFuel_head_noOcc (c0 : Char) (r : List Char) :
    ∀ (fuel : Nat) (s : List Char), s.length ≤ fuel →
      ∀ (h : List Char) (t : List (List Char)),
        pySplitFuel c0 r fuel s = h :: t → pyContainsSeq (c0 :: r) h = false := by
  intro fuel
  induction fuel with
  | zero =>
    intro s hs h t heq
    have hnil : s = [] := List.eq_nil_of_length_eq_zero (Nat.le_zero.mp hs)
    subst hnil
    simp [pySplitFuel] at heq
    obtain ⟨rfl, rfl⟩ := heq
    simp [pyContainsSeq]
  | succ n ih =>
    intro s hs h t heq
    cases s with
    | nil =>
      simp [pySplitFuel] at heq
      obtain ⟨rfl, rfl⟩ := heq
      simp [pyContainsSeq]
    | cons c rest =>
      have hrest : rest.length ≤ n := by simp at hs; omega
      simp only [pySplitFuel] at heq
      split at heq
      case isTrue hpre =>
        injection heq with hh _
        cases hh
        simp [pyContainsSeq]
      case isFalse hpre =>
        rcases h2 : pySplitFuel c0 r n rest with _ | ⟨h', t'⟩
        · exact absurd h2 (pySplitFuel_ne_nil c0 r n rest)
        · rw [h2] at heq
          injection heq with hh _
          cases hh
          have hno : pyContainsSeq (c0 :: r) h' = false := ih rest hrest h' t' h2
          have hpre2 : (c0 :: r).isPrefixOf (c :: h') = false := by
            rcases hx : (c0 :: r).isPrefixOf (c :: h') with _ | _
            · rfl
            · exfalso
              have hp1 : (c0 :: r) <+: (c :: h') := List.isPrefixOf_iff_prefix.mp hx
              have hp2 : h' <+: rest := pySplitFuel_head_isPre c0 r n rest h' t' h2
              have hp3 : (c :: h') <+: (c :: rest) :=
                List.cons_prefix_cons.mpr ⟨rfl, hp2⟩
              exact hpre ( List.isPrefixOf_iff_prefix.mpr (hp1.trans hp3))
          simp [pyContainsSeq, hpre2, hno]

theorem pySplitStr_two_chunks (c0 : Char) (r : List Char) (s : String)
    (h2 : (pySplitStr ⟨c0 :: r⟩ s).length = 2) :
    ∃ a b, pySplitStr ⟨c0 :: r⟩ s = [String.mk a, String.mk b] ∧
      String.mk a ++ ((⟨c0 :: r⟩ : String) ++ String.mk b) = s ∧
      pyContainsSeq (c0 :: r) a = false := by
  have hdef : pySplitStr ⟨c0 :: r⟩ s = (pySplitSeq c0 r s.data).map String.mk := rfl
  rw [hdef] at h2 ⊢
  have hlen : (pySplitSeq c0 r s.data).length = 2 := by simpa using h2
  obtain ⟨a, b, hab⟩ := List.length_eq_two.mp hlen
  refine ⟨a, b, by rw [hab]; rfl, ?_, ?_⟩
  · have hj := joinSep_pySplitFuel c0 r s.data.length s.data (Nat.le_refl _)
    rw [show pySplitFuel c0 r s.data.length s.data = pySplitSeq c0 r s.data from rfl,
        hab] at hj
    have hj2 : a ++ (c0 :: r) ++ b = s.data := by simpa [joinSep] using hj
    apply String.ext
    rw [String.data_append, String.data_append]
    show a ++ ((c0 :: r) ++ b) = s.data
    rw [← List.append_assoc]
    exact hj2
  · exact pySplitFuel_head_noOcc c0 r s.data.length s.data (Nat.le_refl _) a [b]
      (by simpa using hab)

/-! ## C6 -/

/-- Counterexample to C6: when the marker occurs twice, the two rendered
regions do not reassemble to the stored text — everything after the
second occurrence belongs to neither region — so the renderer does not
split the result into a prose prefix and the XML suffix that starts at
the first occurrence of the marker. -/
theorem C6_counterexample :
    renderArchitecture archDoubleMarkerResponse = .twoRegions "A" "<?xmlB" ∧
    "A" ++ "<?xmlB" ≠ archDoubleMarkerResponse := by
  refine ⟨by decide, by decide⟩

/-- C6 (amended): when the stored architecture result contains an XML
marker and the marker the renderer selects (`"<?xml"` when present,
otherwise `"<mxfile"`) occurs exactly once, the renderer shows two
regions — a prose prefix free of the marker and an XML region starting
with the marker — whose concatenation is exactly the stored text, and
the export still returns the full unmodified text.  (With more than one
occurrence only the part up to the second occurrence is rendered, see
the counterexample.) -/
theorem C6_amended_arch_split (st : AppState) (resp : String)
    (hres : st.architecture_analysis = some resp)
    (hc : (pyContains resp "<mxfile" || pyContains resp "<?xml") = true)
    (h2 : (pySplitStr (archMarker resp) resp).length = 2) :
    (∃ pre xml,
      renderArchitecture resp = .twoRegions pre xml ∧
      pre ++ xml = resp ∧
      (∃ z, xml = archMarker resp ++ z) ∧
      pyContains pre (archMarker resp) = false) ∧
    export_app st .architecture
      = some ⟨st.project_name ++ "_architecture.md", resp, "text/markdown"⟩ := by
  constructor
  · by_cases hx : pyContains resp "<?xml" = true
    · have hm : archMarker resp = "<?xml" := by simp [archMarker, hx]
      rw [hm] at h2
      obtain ⟨a, b, hparts, hjoin, hnoocc⟩ :=
        pySplitStr_two_chunks '<' ['?', 'x', 'm', 'l'] resp h2
      refine ⟨String.mk a, "<?xml" ++ String.mk b, ?_, ?_, ⟨String.mk b, by rw [hm]⟩, ?_⟩
      · unfold renderArchitecture
        rw [if_pos hc, hm, hparts]
        simp [List.getD]
      · exact hjoin
      · rw [hm]
        exact hnoocc
    · have hmx : pyContains resp "<mxfile" = true := by
        rcases Bool.or_eq_true_iff.mp hc with h | h
        · exact h
        · exact absurd h hx
      have hm : archMarker resp = "<mxfile" := by simp [archMarker, hx]
      rw [hm] at h2
      obtain ⟨a, b, hparts, hjoin, hnoocc⟩ :=
        pySplitStr_two_chunks '<' ['m', 'x', 'f', 'i', 'l', 'e'] resp h2
      refine ⟨String.mk a, "<mxfile" ++ String.mk b, ?_, ?_, ⟨String.mk b, by rw [hm]⟩, ?_⟩
      · unfold renderArchitecture
        rw [if_pos hc, hm, hparts]
        simp [List.getD]
      · exact hjoin
      · rw [hm]
        exact hnoocc
  · have hne : resp ≠ "" := by
      intro h0
      subst h0
      have hf1 : pyContains "" "<mxfile" = false := by decide
      have hf2 : pyContains "" "<?xml" = false := by decide
      rw [hf1, hf2] at hc
      simp at hc
    simp [export_app, resultOf, hres, hne]

/-- Witness for C6 (amended): a prose paragraph followed by a single
XML marker splits into two regions that reassemble to the original, and
the export returns the full text. -/
theorem C6_witness :
    (∃ pre xml,
      renderArchitecture archDemoResponse = .twoRegions pre xml ∧
      pre ++ xml = archDemoResponse ∧
      (∃ z, xml = archMarker archDemoResponse ++ z) ∧
      pyContains pre (archMarker archDemoResponse) = false) ∧
    export_app archDemoState .architecture
      = some ⟨archDemoState.project_name ++ "_architecture.md",
              archDemoResponse, "text/markdown"⟩ :=
  C6_amended_arch_split archDemoState archDemoResponse rfl (by decide) (by decide)

end CdpStrands

